import Mathlib

/-!
# Verification of the sportx-js client SDK payload construction

A shallow embedding of the two `SportX` facade classes of the sportx-js
repository:

* the *modern* component (`src/unnamed/part_000`): HTTP transport, EIP-712
  signing of orders, fills, cancels and DAI permits;
* the *legacy* component (`src/src/sportx.ts`): socket transport, plain
  message signing of cancels.

Pure payload-assembly code is translated into Lean functions; the stateful
`init` flows become explicit state-passing functions; promise executors whose
settlement depends on external events become functions from an environment
(which events fire, what the relayer answers) to an optional settlement, where
`none` models a promise that never settles.  Machine-level concerns (actual
keccak hashing, elliptic-curve signing, wire encoding) that the source
delegates to external libraries are modelled symbolically: a signature records
which scheme was used and exactly what data was signed.
-/

namespace SportXJS

/-! ## Decimal rendering

`BigNumber.toString()` and `Number.toString()` in the source render a
non-negative integer as its usual decimal numeral.  We embed that rendering
with a fuel-based digit extractor (kernel-computable) and relate it to
`Nat.digits` to obtain injectivity. -/

/-- Little-endian decimal digits of `n`, with explicit fuel so that the
recursion is structural.  With fuel at least `n` this agrees with
`Nat.digits 10 n`. -/
def decDigitsAux : Nat → Nat → List Nat
  | _, 0 => []
  | 0, _ + 1 => []
  | fuel + 1, n + 1 => ((n + 1) % 10) :: decDigitsAux fuel ((n + 1) / 10)

/-- Little-endian decimal digits of `n`. -/
def decDigits (n : Nat) : List Nat :=
  decDigitsAux n n

/-- The decimal numeral of a natural number, as produced by
`BigNumber.toString()` / `Number.toString()` in the source. -/
def decimalString (n : Nat) : String :=
  if n = 0 then "0" else String.mk ((decDigits n).reverse.map Nat.digitChar)

/-! ## Wire values and error kinds -/

/-- JSON values, modelling relayer response bodies. -/
inductive Json where
  | null : Json
  | bool (b : Bool) : Json
  | num (n : Int) : Json
  | str (s : String) : Json
  | arr (elems : List Json) : Json
  | obj (fields : List (String × Json)) : Json

/-- Field lookup in a JSON object; `none` models JavaScript's `undefined` when
destructuring a missing field. -/
def Json.getField : Json → String → Option Json
  | .obj fields, key => fields.lookup key
  | _, _ => none

/-- The error kinds of the SDK (`errors/api_error`, `errors/schema_error`,
`errors/api_timeout_error`, plus plain `Error` throws and the bare `reject()`
of the modern component's `init`). -/
inductive ClientError where
  | schemaError (message : String) : ClientError
  | apiError (body : Option Json) (message : String) : ClientError
  | timeoutError (message : String) : ClientError
  | genericError (message : String) : ClientError
  | undefinedRejection : ClientError

/-- An HTTP response as the modern component's `tryParseResponse` sees it:
the status code, the body text, and the outcome of `tryParseJson` on that
text (`none` when the body is not valid JSON). -/
structure HttpResponse where
  status : Nat
  text : String
  parsed : Option Json

/-- Counts the observable side effects of an operation: network calls
(HTTP fetches / socket emissions) and signing calls. -/
structure Trace where
  networkCalls : Nat
  signCalls : Nat
deriving DecidableEq, Repr

/-- The trace of an operation that failed before any side effect. -/
def Trace.pure : Trace := ⟨0, 0⟩

/-- Embeds `tryParseResponse` (modern component, `part_000` lines 696-711):
a parsable body with a non-200 status becomes an `APIError` carrying the
parsed body and the status code; an unparsable body becomes an `APIError`
carrying the raw text; otherwise the parsed body is returned. -/
def tryParseResponse (response : HttpResponse) (errorMessage : String) :
    Except ClientError Json :=
  match response.parsed with
  | some result =>
      if response.status ≠ 200 then
        .error (.apiError (some result)
          (errorMessage ++ ". Response code: " ++ decimalString response.status))
      else
        .ok result
  | none => .error (.apiError none ("Can't parse JSON " ++ response.text))

/-! ## Data model -/

/-- The relayer fee schedule, part of the cached `Metadata`. -/
structure Fees where
  relayerTakerFee : String
  relayerMakerFee : String
deriving DecidableEq, Repr

/-- The relayer-wide configuration snapshot fetched once at initialization
and cached on the client instance. -/
structure Metadata where
  executorAddress : String
  relayerAddress : String
  fees : Fees
  /-- Minimum total bet size; a decimal numeral on the wire, parsed with
  `bigNumberify` before use, so we carry the numeric value. -/
  makerOrderMinimum : Nat
deriving DecidableEq, Repr

/-- A caller-supplied order intent (`INewOrder`).  `baseToken` is used by the
modern component only. -/
structure INewOrder where
  marketHash : String
  /-- A decimal numeral string, as in the source. -/
  totalBetSize : String
  percentageOdds : String
  /-- A JavaScript number in the source; rendered with `toString()` into the
  payload. -/
  expiry : Nat
  isMakerBettingOutcomeOne : Bool
  baseToken : String
deriving DecidableEq, Repr

/-- The canonical maker order assembled by the modern component's `newOrder`
(`part_000` lines 314-324). -/
structure IRelayerMakerOrder where
  marketHash : String
  maker : String
  totalBetSize : String
  percentageOdds : String
  expiry : String
  executor : String
  baseToken : String
  salt : String
  isMakerBettingOutcomeOne : Bool
deriving DecidableEq, Repr

/-- A signed maker order as accepted by the modern component's `fillOrders`
(the `signature` is the maker's wire signature string). -/
structure ISignedRelayerMakerOrder extends IRelayerMakerOrder where
  signature : String
deriving DecidableEq, Repr

/-- The canonical maker order assembled by the legacy component's `newOrder`
(`sportx.ts` lines 197-209). -/
structure IRelayerNewMakerOrder where
  marketHash : String
  maker : String
  totalBetSize : String
  percentageOdds : String
  expiry : String
  relayerTakerFee : String
  relayerMakerFee : String
  executor : String
  relayer : String
  salt : String
  isMakerBettingOutcomeOne : Bool
deriving DecidableEq, Repr

/-- The structured cancellation details of the modern component
(`ICancelDetails`). -/
structure ICancelDetails where
  orders : List String
  message : String
deriving DecidableEq, Repr

/-- The human-readable metadata attached to a fill (`IFillDetailsMetadata`);
every field defaults to "N/A". -/
structure IFillDetailsMetadata where
  action : String
  market : String
  betting : String
  stake : String
  odds : String
  returning : String
deriving DecidableEq, Repr

/-- The default fill-details metadata assembled by `fillOrders` when the
caller supplies none (`part_000` lines 439-446). -/
def defaultFillDetailsMetadata : IFillDetailsMetadata :=
  ⟨"N/A", "N/A", "N/A", "N/A", "N/A", "N/A"⟩

/-- The canonical on-chain representation of a signed order, produced by the
external helper `convertToContractOrder` (`utils/convert`, outside `src/`).
Modelled symbolically as a tagged copy of its source order; only its identity
and multiplicity matter to the claims. -/
structure ContractOrder where
  source : ISignedRelayerMakerOrder
deriving DecidableEq, Repr

/-- Embeds the external helper `convertToContractOrder`. -/
def convertToContractOrder (order : ISignedRelayerMakerOrder) : ContractOrder :=
  ⟨order⟩

/-- The order hash computed by the external helper `getOrderHash`
(`utils/signing`, outside `src/`), modelled symbolically. -/
structure OrderHash where
  hashed : ContractOrder
deriving DecidableEq, Repr

/-- Embeds the external helper `getOrderHash`. -/
def getOrderHash (order : ContractOrder) : OrderHash :=
  ⟨order⟩

/-- The `fills` object inside `IFillDetails` (`part_000` lines 449-454). -/
structure FillObject where
  orders : List ContractOrder
  makerSigs : List String
  /-- `BigNumber`s in the source (`takerAmounts.map(bigNumberify)`). -/
  takerAmounts : List Nat
  fillSalt : Nat
deriving DecidableEq, Repr

/-- The full fill details that get EIP-712-signed by the taker
(`part_000` lines 447-455).  The source spreads the metadata fields inline;
we keep them in a named field. -/
structure IFillDetails where
  metadata : IFillDetailsMetadata
  fills : FillObject
deriving DecidableEq, Repr

/-- A Solidity-typed value passed to `solidityKeccak256`. -/
inductive SolValue where
  | bytes32 (hash : String) : SolValue
  | boolean (b : Bool) : SolValue
deriving DecidableEq, Repr

/-- An EIP-712 structured payload, modelled symbolically by which builder
produced it and from what data. -/
inductive Eip712Payload where
  /-- `getOrderSignature` over a modern canonical order. -/
  | modernOrder (order : IRelayerMakerOrder) : Eip712Payload
  /-- `getOrderSignature` over a legacy canonical order. -/
  | legacyOrder (order : IRelayerNewMakerOrder) : Eip712Payload
  /-- `getCancelOrderEIP712Payload cancelDetails chainId`. -/
  | cancel (details : ICancelDetails) (chainId : Nat) : Eip712Payload
  /-- `getFillOrderEIP712Payload fillDetails chainId verifyingContract`. -/
  | fill (details : IFillDetails) (chainId : Nat)
      (verifyingContract : String) : Eip712Payload
deriving DecidableEq, Repr

/-- A produced signature, tagged by the signing scheme: plain Ethereum
message signing of a `solidityKeccak256` hash, versus EIP-712 typed-data
signing of a structured payload.  The two schemes are not interchangeable. -/
inductive Signature where
  | messageSign (keccakTypes : List String) (keccakValues : List SolValue) : Signature
  | typedDataSign (payload : Eip712Payload) : Signature
deriving DecidableEq, Repr

/-! ## Validation helpers

The helper functions of `utils/validation` are collaborators of this
repository whose source is not under `src/`; the operations only compare
their result against "OK".  They are modelled from the spec. -/

/-- Whether a character is a hexadecimal digit. -/
def isHexDigit (c : Char) : Bool :=
  c.isDigit || ('a' ≤ c && c ≤ 'f') || ('A' ≤ c && c ≤ 'F')

/-- Modelled from the spec: the `isHexString` helper used for hash checks
(missing `utils/validation`) — "hex-string format checks for hashes": a
"0x"-prefixed string of hexadecimal digits. -/
def isHexString (s : String) : Bool :=
  match s.data with
  | '0' :: 'x' :: rest => rest.all isHexDigit
  | _ => false

/-- Modelled from the spec: the `isAddress` helper (missing
`utils/validation`) — "checksum-address format checks for Ethereum
addresses": a 20-byte hex string, i.e. "0x" followed by 40 hex digits. -/
def isAddress (s : String) : Bool :=
  isHexString s && s.data.length == 42

/-- Decimal parse of a numeral string, the embedding of `bigNumberify` on
the decimal strings that reach it after validation (`bigNumberify` itself
is an external-library collaborator). -/
def decimalToNat? (s : String) : Option Nat :=
  match s.data with
  | [] => none
  | ds =>
      if ds.all Char.isDigit then
        some (ds.foldl (fun n c => n * 10 + (c.toNat - 48)) 0)
      else none

/-- Modelled from the spec: the `isPositiveBigNumber` helper (missing
`utils/validation`) — "positive-decimal-string checks for monetary
amounts": the string parses as a decimal numeral with a positive value. -/
def isPositiveBigNumber (s : String) : Bool :=
  match decimalToNat? s with
  | some n => n != 0
  | none => false

/-- Modelled from the spec: `validateINewOrderSchema` (missing
`utils/validation`), the field-format checks on a caller-supplied order
intent, returning "OK" or a human-readable violation string.  Boolean-type
checks of the source are vacuous in this typed embedding. -/
def validateINewOrderSchema (order : INewOrder) : String :=
  if !isHexString order.marketHash then
    "marketHash is not a valid hex string"
  else if !isPositiveBigNumber order.totalBetSize then
    "totalBetSize is not a positive number string"
  else if !isPositiveBigNumber order.percentageOdds then
    "percentageOdds is not a positive number string"
  else if !isAddress order.baseToken then
    "baseToken is not a valid address"
  else "OK"

/-- Modelled from the spec: `validateISignedRelayerMakerOrder` (missing
`utils/validation`), the field-format checks on a signed maker order handed
to `fillOrders`, returning "OK" or a violation string. -/
def validateISignedRelayerMakerOrder (order : ISignedRelayerMakerOrder) : String :=
  if !isHexString order.marketHash then
    "marketHash is not a valid hex string"
  else if !isAddress order.maker then
    "maker is not a valid address"
  else if !isPositiveBigNumber order.totalBetSize then
    "totalBetSize is not a positive number string"
  else if !isPositiveBigNumber order.percentageOdds then
    "percentageOdds is not a positive number string"
  else if !isPositiveBigNumber order.expiry then
    "expiry is not a positive number string"
  else if !isAddress order.executor then
    "executor is not a valid address"
  else if !isAddress order.baseToken then
    "baseToken is not a valid address"
  else if !isPositiveBigNumber order.salt then
    "salt is not a positive number string"
  else if !isHexString order.signature then
    "signature is not a valid hex string"
  else "OK"

/-- Modelled from the spec: `validateIFillDetailsMetadata` (missing
`utils/validation`): the fields are free-form strings, so in this typed
embedding every runtime type check passes. -/
def validateIFillDetailsMetadata (_ : IFillDetailsMetadata) : String :=
  "OK"

/-- Modelled from the spec: `validateOrderHashArray` (missing
`utils/validation`), the legacy component's check that its argument is an
array of hex-string order hashes. -/
def validateOrderHashArray (hashes : List String) : String :=
  if hashes.all isHexString then "OK"
  else "One of the order hashes is not a valid hex string"

/-! ## Canonical payload assembly -/

/-- Embeds the canonical-order assembly of the modern component's `newOrder`
(`part_000` lines 312-324): maker from the signing credential, executor from
the cached metadata, a fresh random salt (`saltDraw` is the value drawn by
`bigNumberify(randomBytes(32))`), everything else from the intent. -/
def modernMakerOrder (order : INewOrder) (walletAddress : String)
    (metadata : Metadata) (saltDraw : Nat) : IRelayerMakerOrder :=
  { marketHash := order.marketHash
    maker := walletAddress
    totalBetSize := decimalString ((decimalToNat? order.totalBetSize).getD 0)
    percentageOdds := order.percentageOdds
    expiry := decimalString order.expiry
    executor := metadata.executorAddress
    baseToken := order.baseToken
    salt := decimalString saltDraw
    isMakerBettingOutcomeOne := order.isMakerBettingOutcomeOne }

/-- Embeds the canonical-order assembly of the legacy component's `newOrder`
(`sportx.ts` lines 196-209): maker from the signing wallet, executor,
relayer and both fee rates from the cached metadata, a fresh random salt. -/
def legacyMakerOrder (order : INewOrder) (walletAddress : String)
    (metadata : Metadata) (saltDraw : Nat) : IRelayerNewMakerOrder :=
  { marketHash := order.marketHash
    maker := walletAddress
    totalBetSize := decimalString ((decimalToNat? order.totalBetSize).getD 0)
    percentageOdds := order.percentageOdds
    expiry := decimalString order.expiry
    relayerTakerFee := metadata.fees.relayerTakerFee
    relayerMakerFee := metadata.fees.relayerMakerFee
    executor := metadata.executorAddress
    relayer := metadata.relayerAddress
    salt := decimalString saltDraw
    isMakerBettingOutcomeOne := order.isMakerBettingOutcomeOne }

/-- Embeds the cancellation-details assembly of the modern component's
`cancelOrder` (`part_000` lines 499-503).  `message || "N/A"` in the source
substitutes the default for every falsy message value: an omitted argument
(`none`) and the empty string alike. -/
def modernCancelDetails (orderHashes : List String) (message : Option String) :
    ICancelDetails :=
  { orders := orderHashes
    message :=
      match message with
      | some m => if m = "" then "N/A" else m
      | none => "N/A" }

/-- Embeds the signing payload of the legacy component's `cancelOrder`
(`sportx.ts` lines 254-257): `solidityKeccak256` over one "bytes32" per
order hash followed by a "bool", applied to the hashes followed by the
literal `true`. -/
def legacyCancelKeccakTypes (orderHashes : List String) : List String :=
  orderHashes.map (fun _ => "bytes32") ++ ["bool"]

/-- The value list matching `legacyCancelKeccakTypes`. -/
def legacyCancelKeccakValues (orderHashes : List String) : List SolValue :=
  orderHashes.map SolValue.bytes32 ++ [SolValue.boolean true]

/-- The legacy cancel request (`sportx.ts` lines 258-264): the hash list plus
a plain message signature (`signingWallet.signMessage`) over the keccak hash
of the hashes and the literal `true`. -/
structure LegacyCancelRequest where
  orderHashes : List String
  cancelSignature : Signature
deriving DecidableEq, Repr

/-- Embeds the request assembly of the legacy component's `cancelOrder`. -/
def legacyCancelRequest (orderHashes : List String) : LegacyCancelRequest :=
  { orderHashes
    cancelSignature :=
      .messageSign (legacyCancelKeccakTypes orderHashes)
        (legacyCancelKeccakValues orderHashes) }

/-- Embeds the fill-details assembly of the modern component's `fillOrders`
(`part_000` lines 436-455): one shared random fill salt, the orders
converted to their contract representation, the maker signatures and the
taker amounts, plus the (defaulted) metadata. -/
def modernFillDetails (orders : List ISignedRelayerMakerOrder)
    (takerAmounts : List String) (fillDetailsMetadata : Option IFillDetailsMetadata)
    (fillSaltDraw : Nat) : IFillDetails :=
  { metadata := fillDetailsMetadata.getD defaultFillDetailsMetadata
    fills :=
      { orders := orders.map convertToContractOrder
        makerSigs := orders.map fun order => order.signature
        takerAmounts := takerAmounts.map fun amount => (decimalToNat? amount).getD 0
        fillSalt := fillSaltDraw } }

/-! ## Operations

Each operation is embedded as a function from its arguments and an
environment (the external world: the wallet address, random draws, the
relayer's HTTP response or socket acknowledgment) to its outcome paired with
a `Trace` of the side effects it performed. -/

/-- A socket acknowledgment envelope (`{status, reason?}`). -/
structure SocketAck where
  status : String
  reason : String
deriving DecidableEq, Repr

/-- The environment of a legacy socket mutation: the acknowledgment the
relayer sends back, or `none` when no acknowledgment arrives before the
timeout. -/
structure LegacySocketEnv where
  ack : Option SocketAck
deriving DecidableEq, Repr

/-- The environment of the modern component's `newOrder`. -/
structure ModernNewOrderEnv where
  walletAddress : String
  saltDraw : Nat
  response : HttpResponse

/-- Embeds the modern component's `newOrder` (`part_000` lines 306-353):
schema validation, canonical order assembly, EIP-712 signing, HTTP POST,
response parsing. -/
def modernNewOrder (metadata : Metadata) (env : ModernNewOrderEnv)
    (order : INewOrder) :
    Except ClientError (IRelayerMakerOrder × Signature × Json) × Trace :=
  let schemaValidation := validateINewOrderSchema order
  if schemaValidation ≠ "OK" then
    (.error (.schemaError schemaValidation), Trace.pure)
  else
    let apiMakerOrder := modernMakerOrder order env.walletAddress metadata env.saltDraw
    let signature := Signature.typedDataSign (.modernOrder apiMakerOrder)
    match tryParseResponse env.response "Can't submit new order" with
    | .error e => (.error e, ⟨1, 1⟩)
    | .ok result => (.ok (apiMakerOrder, signature, result), ⟨1, 1⟩)

/-- The environment of the legacy component's `newOrder`. -/
structure LegacyNewOrderEnv where
  walletAddress : String
  saltDraw : Nat
  ack : Option SocketAck

/-- Embeds the legacy component's `newOrder` (`sportx.ts` lines 179-247):
schema validation, the bet-size minimum check against the cached metadata
(the source's message interpolates `formatUnits` of the minimum, which we
abbreviate), canonical order assembly, EIP-712 signing, socket emission with
an acknowledgment callback raced against an unconditionally armed timeout. -/
def legacyNewOrder (metadata : Metadata) (env : LegacyNewOrderEnv)
    (order : INewOrder) :
    Except ClientError (IRelayerNewMakerOrder × Signature × SocketAck) × Trace :=
  let schemaValidation := validateINewOrderSchema order
  if schemaValidation ≠ "OK" then
    (.error (.schemaError schemaValidation), Trace.pure)
  else if (decimalToNat? order.totalBetSize).getD 0 < metadata.makerOrderMinimum then
    (.error (.schemaError "totalBetSize below API minimum"), Trace.pure)
  else
    let apiMakerOrder := legacyMakerOrder order env.walletAddress metadata env.saltDraw
    let signature := Signature.typedDataSign (.legacyOrder apiMakerOrder)
    match env.ack with
    | some ack =>
        if ack.status = "success" then (.ok (apiMakerOrder, signature, ack), ⟨1, 1⟩)
        else
          (.error (.apiError none
            ("Unable to create new order. Status: " ++ ack.status ++
              ". Reason: " ++ ack.reason)), ⟨1, 1⟩)
    | none =>
        (.error (.timeoutError "Timeout getting submitting order to the SportX API"),
          ⟨1, 1⟩)

/-- Embeds the legacy component's `cancelOrder` (`sportx.ts` lines 249-294):
hash-array validation, then a plain message signature over the keccak hash
of the order hashes plus the literal `true`, then a socket emission with an
acknowledgment callback raced against an unconditionally armed timeout. -/
def legacyCancelOrder (env : LegacySocketEnv) (orderHashes : List String) :
    Except ClientError (LegacyCancelRequest × SocketAck) × Trace :=
  let schemaValidation := validateOrderHashArray orderHashes
  if schemaValidation ≠ "OK" then
    (.error (.schemaError schemaValidation), Trace.pure)
  else
    let request := legacyCancelRequest orderHashes
    match env.ack with
    | some ack =>
        if ack.status = "success" then (.ok (request, ack), ⟨1, 1⟩)
        else
          (.error (.apiError none
            ("Unable to cancel order. Status: " ++ ack.status ++
              ". Reason: " ++ ack.reason)), ⟨1, 1⟩)
    | none =>
        (.error (.timeoutError "Timeout getting submitting order to the SportX API"),
          ⟨1, 1⟩)

/-- Embeds the modern component's `cancelOrder` (`part_000` lines 488-530):
hash validation (the `isArray` and message-type checks of the source are
vacuous in this typed embedding), cancellation-details assembly with the
defaulted message, EIP-712 signing, HTTP POST, response parsing. -/
def modernCancelOrder (chainId : Nat) (response : HttpResponse)
    (orderHashes : List String) (message : Option String) :
    Except ClientError (ICancelDetails × Signature × Json) × Trace :=
  if !orderHashes.all isHexString then
    (.error (.schemaError "orderHashes has some invalid order hashes."), Trace.pure)
  else
    let cancelDetails := modernCancelDetails orderHashes message
    let cancelSignature := Signature.typedDataSign (.cancel cancelDetails chainId)
    match tryParseResponse response "Can't cancel orders." with
    | .error e => (.error e, ⟨1, 1⟩)
    | .ok result => (.ok (cancelDetails, cancelSignature, result), ⟨1, 1⟩)

/-- The environment of the modern component's `fillOrders`. -/
structure FillOrdersEnv where
  walletAddress : String
  fillSaltDraw : Nat
  chainId : Nat
  /-- `EIP712_FILL_HASHER_ADDRESSES[this.environment]`. -/
  verifyingContract : String
  response : HttpResponse

/-- What a successful `fillOrders` produced: the EIP-712-signed fill details,
the taker signature, the order hashes sent in the flattened request, and the
relayer's parsed response. -/
structure FillOrdersOutcome where
  fillDetails : IFillDetails
  takerSignature : Signature
  orderHashes : List OrderHash
  result : Json

/-- Embeds the modern component's `fillOrders` (`part_000` lines 404-486):
per-order validation, affiliate-address and metadata validation, the
taker-amount checks (the source's `isArray` check is vacuous here), then
fill-details assembly, EIP-712 signing by the taker, HTTP POST and response
parsing.  The source never compares `orders.length` with
`takerAmounts.length`. -/
def modernFillOrders (env : FillOrdersEnv)
    (orders : List ISignedRelayerMakerOrder) (takerAmounts : List String)
    (fillDetailsMetadata : Option IFillDetailsMetadata)
    (affiliateAddress : Option String) :
    Except ClientError FillOrdersOutcome × Trace :=
  let orderErr := orders.findSome? fun order =>
    let v := validateISignedRelayerMakerOrder order
    if v = "OK" then none else some v
  let affiliateErr := match affiliateAddress with
    | some a => if !isAddress a then some "Affiliate address malformed." else none
    | none => none
  let metaErr := match fillDetailsMetadata with
    | some m =>
        let v := validateIFillDetailsMetadata m
        if v = "OK" then none else some v
    | none => none
  let amountsErr :=
    if !takerAmounts.all isPositiveBigNumber then
      some "takerAmounts has some invalid number strings"
    else none
  match orderErr <|> affiliateErr <|> metaErr <|> amountsErr with
  | some v => (.error (.schemaError v), Trace.pure)
  | none =>
      let fillDetails :=
        modernFillDetails orders takerAmounts fillDetailsMetadata env.fillSaltDraw
      let orderHashes := (orders.map convertToContractOrder).map getOrderHash
      let takerSignature :=
        Signature.typedDataSign (.fill fillDetails env.chainId env.verifyingContract)
      match tryParseResponse env.response "Can't fill orders." with
      | .error e => (.error e, ⟨1, 1⟩)
      | .ok result =>
          (.ok ⟨fillDetails, takerSignature, orderHashes, result⟩, ⟨1, 1⟩)

/-! ## Reads with response parsing (modern component) -/

/-- Embeds the modern component's `getMetadata` (`part_000` lines 223-236):
one HTTP GET, `tryParseResponse`, then the body's `data` field (a missing
field is JavaScript `undefined`, rendered as `Json.null`). -/
def modernGetMetadata (response : HttpResponse) : Except ClientError Json :=
  match tryParseResponse response "Can't fetch metadata" with
  | .error e => .error e
  | .ok result => .ok ((result.getField "data").getD .null)

/-- Embeds the modern component's `getActiveMarkets` (`part_000` lines
260-275): one HTTP GET, `tryParseResponse`, then the nested
`data.markets` sub-field.  When `data` itself is absent the source's
destructuring throws a runtime `TypeError`; only the kind of that failure
(an unhandled exception distinct from `APIError`) is modelled. -/
def modernGetActiveMarkets (response : HttpResponse) : Except ClientError Json :=
  match tryParseResponse response "Can't fetch active markets" with
  | .error e => .error e
  | .ok result =>
      match result.getField "data" with
      | none => .error (.genericError "TypeError")
      | some d => .ok ((d.getField "markets").getD .null)

/-! ## Initialization state machines -/

/-- The mutable state of a legacy client instance. -/
structure LegacyState where
  initialized : Bool
  connected : Bool
  metadata : Option Json

/-- A freshly constructed legacy instance. -/
def LegacyState.fresh : LegacyState :=
  ⟨false, false, none⟩

/-- The environment of a legacy `init` call: whether the socket ever emits
its "connect" event, and the outcome of the metadata fetch performed after
connecting. -/
structure LegacyInitEnv where
  connectFires : Bool
  metadataResult : Except ClientError Json

/-- Embeds the legacy component's `init` (`sportx.ts` lines 78-95).  The
first result component is the settlement of the returned promise, where
`none` means it never settles: the `setTimeout` that would reject on timeout
is registered *inside* the "connect" handler (lines 84-90), so when the
connect event never fires nothing can settle the promise.  On connect the
instance is marked initialized *before* the metadata fetch (line 92 before
line 93), so a failing fetch leaves an initialized instance with no cached
metadata. -/
def legacyInit (s : LegacyState) (env : LegacyInitEnv) :
    Option (Except ClientError Unit) × LegacyState :=
  if s.initialized then
    (some (.error (.genericError "Already initialized")), s)
  else if !env.connectFires then
    (none, s)
  else
    match env.metadataResult with
    | .error e => (some (.error e), { s with connected := true, initialized := true })
    | .ok md =>
        (some (.ok ()),
          { initialized := true, connected := true, metadata := some md })

/-- How many timeout timers the legacy `init` promise executor arms, as a
function of whether the connect event fires: the `setTimeout` call sits
inside the "connect" handler (`sportx.ts` lines 84-90). -/
def legacyInitTimersArmed (connectFires : Bool) : Nat :=
  if connectFires then 1 else 0

/-- The environment of the legacy component's `getActiveMarkets`: whether the
server-pushed active-markets event arrives (with which data), and whether the
emission's acknowledgment callback runs (with which envelope). -/
structure LegacySocketQueryEnv where
  eventFires : Bool
  eventData : Json
  ackRuns : Bool
  ackStatus : String
  ackReason : String

/-- Embeds the legacy component's `getActiveMarkets` (`sportx.ts` lines
143-177): the pushed event resolves the promise; a non-"success"
acknowledgment rejects it; the timeout rejection can fire only after the
acknowledgment callback has run, because the `setTimeout` call sits inside
that callback (lines 164-172).  When neither the event nor the
acknowledgment arrives, nothing can settle the promise (`none`). -/
def legacyGetActiveMarkets (env : LegacySocketQueryEnv) :
    Option (Except ClientError Json) :=
  if env.eventFires then
    some (.ok env.eventData)
  else if env.ackRuns then
    if env.ackStatus ≠ "success" then
      some (.error (.genericError
        ("Error getting active markets. Reason: " ++ env.ackReason)))
    else
      some (.error (.timeoutError
        "Timeout getting active markets from the SportX API"))
  else none

/-- How many timeout timers the legacy `getActiveMarkets` executor arms:
the `setTimeout` call sits inside the acknowledgment callback
(`sportx.ts` lines 164-172). -/
def legacyGetActiveMarketsTimersArmed (ackRuns : Bool) : Nat :=
  if ackRuns then 1 else 0

/-- The mutable state of a modern client instance. -/
structure ModernState where
  initialized : Bool
  metadata : Option Json
  chainId : Option Nat

/-- A freshly constructed modern instance. -/
def ModernState.fresh : ModernState :=
  ⟨false, none, none⟩

/-- The environment of a modern `init` call. -/
structure ModernInitEnv where
  connectFires : Bool
  metadataResponse : HttpResponse
  chainId : Nat

/-- Embeds the modern component's `init` (`part_000` lines 177-221).  Its
timeout is armed unconditionally (line 188), but it rejects with a bare
`reject()` carrying no error value; the instance is marked initialized only
at the very end (line 219), after the metadata fetch and network lookup. -/
def modernInit (s : ModernState) (env : ModernInitEnv) :
    Option (Except ClientError Unit) × ModernState :=
  if s.initialized then
    (some (.error (.genericError "Already initialized")), s)
  else if !env.connectFires then
    (some (.error .undefinedRejection), s)
  else
    match modernGetMetadata env.metadataResponse with
    | .error e => (some (.error e), s)
    | .ok md =>
        (some (.ok ()),
          { initialized := true, metadata := some md, chainId := some env.chainId })

/-! ## Sample inputs

Concrete values used to evaluate the theorems below on closed instances. -/

/-- A well-formed Ethereum address: "0x" followed by 40 hex digits. -/
def sampleAddress : String :=
  "0x1111111111111111111111111111111111111111"

/-- A well-formed relayer success body. -/
def sampleBody : Json :=
  .obj [("status", .str "success"), ("data", .obj [("markets", .arr [])])]

/-- A 200 response with a parsable success body. -/
def sampleOkResponse : HttpResponse :=
  ⟨200, "status success", some sampleBody⟩

/-- A concrete cached metadata snapshot. -/
def sampleMetadata : Metadata :=
  ⟨sampleAddress, sampleAddress, ⟨"20000000000000000", "0"⟩, 100⟩

/-- A well-formed caller order intent. -/
def sampleIntent : INewOrder :=
  ⟨"0xabcd", "1000", "50000000000000000000", 2209006800, true, sampleAddress⟩

/-- An order intent with a malformed market hash. -/
def badIntent : INewOrder :=
  ⟨"zz", "1000", "50000000000000000000", 2209006800, true, sampleAddress⟩

/-- A well-formed signed maker order, passing every field-format check. -/
def sampleSignedOrder : ISignedRelayerMakerOrder :=
  { marketHash := "0xabcd"
    maker := sampleAddress
    totalBetSize := "1000"
    percentageOdds := "50000000000000000000"
    expiry := "2209006800"
    executor := sampleAddress
    baseToken := sampleAddress
    salt := "123"
    isMakerBettingOutcomeOne := true
    signature := "0xdead" }

/-- A signed maker order with a malformed market hash. -/
def badSignedOrder : ISignedRelayerMakerOrder :=
  { sampleSignedOrder with marketHash := "zz" }

/-- A concrete `fillOrders` environment. -/
def sampleFillEnv : FillOrdersEnv :=
  ⟨sampleAddress, 7, 1, sampleAddress, sampleOkResponse⟩

/-! ## Properties of the decimal rendering -/

theorem decDigitsAux_eq_digits (fuel : Nat) :
    ∀ n : Nat, n ≤ fuel → decDigitsAux fuel n = Nat.digits 10 n := by
  induction fuel with
  | zero =>
      intro n hn
      interval_cases n
      simp [decDigitsAux]
  | succ f ih =>
      intro n hn
      match n with
      | 0 => simp [decDigitsAux]
      | m + 1 =>
          rw [decDigitsAux, Nat.digits_def' (b := 10) (by norm_num) (Nat.succ_pos m)]
          have hdiv : (m + 1) / 10 ≤ f := by
            have h1 : (m + 1) / 10 < m + 1 := Nat.div_lt_self (Nat.succ_pos m) (by norm_num)
            omega
          rw [ih _ hdiv]

theorem decDigits_eq_digits (n : Nat) : decDigits n = Nat.digits 10 n :=
  decDigitsAux_eq_digits n n le_rfl

theorem digitChar_inj_below_ten :
    ∀ a < 10, ∀ b < 10, Nat.digitChar a = Nat.digitChar b → a = b := by
  decide

theorem map_digitChar_inj :
    ∀ (l₁ l₂ : List Nat), (∀ x ∈ l₁, x < 10) → (∀ x ∈ l₂, x < 10) →
      l₁.map Nat.digitChar = l₂.map Nat.digitChar → l₁ = l₂ := by
  intro l₁
  induction l₁ with
  | nil =>
      intro l₂ _ _ h
      cases l₂ with
      | nil => rfl
      | cons b t => simp at h
  | cons a t ih =>
      intro l₂ h₁ h₂ h
      cases l₂ with
      | nil => simp at h
      | cons b t₂ =>
          simp only [List.map_cons, List.cons.injEq] at h
          have ha : a < 10 := h₁ a (List.mem_cons_self a t)
          have hb : b < 10 := h₂ b (List.mem_cons_self b t₂)
          have hab : a = b := digitChar_inj_below_ten a ha b hb h.1
          have ht : t = t₂ :=
            ih t₂ (fun x hx => h₁ x (List.mem_cons_of_mem a hx))
              (fun x hx => h₂ x (List.mem_cons_of_mem b hx)) h.2
          rw [hab, ht]

theorem eq_zero_of_decimalString_eq_zero {n : Nat} (h : decimalString n = "0") : n = 0 := by
  by_contra hn
  simp only [decimalString, if_neg hn] at h
  have hchars : (Nat.digits 10 n).reverse.map Nat.digitChar = ['0'] := by
    have := congrArg String.data h
    simpa [decDigits_eq_digits] using this
  have hlen : (Nat.digits 10 n).length = 1 := by
    have := congrArg List.length hchars
    simpa using this
  obtain ⟨d, hdigs⟩ : ∃ d, Nat.digits 10 n = [d] := by
    match hds : Nat.digits 10 n with
    | [] => rw [hds] at hlen; simp at hlen
    | [d] => exact ⟨d, rfl⟩
    | a :: b :: t => rw [hds] at hlen; simp at hlen
  have hdchar : Nat.digitChar d = '0' := by
    rw [hdigs] at hchars
    simpa using hchars
  have hdlt : d < 10 :=
    Nat.digits_lt_base (by norm_num) (by rw [hdigs]; exact List.mem_cons_self d [])
  have hd0 : d = 0 := digitChar_inj_below_ten d hdlt 0 (by norm_num) (by simpa using hdchar)
  have hofd := Nat.ofDigits_digits 10 n
  rw [hdigs, hd0] at hofd
  simp [Nat.ofDigits] at hofd
  exact hn hofd.symm

theorem decimalString_injective : Function.Injective decimalString := by
  intro m n h
  by_cases hm : m = 0 <;> by_cases hn : n = 0
  · omega
  · exact absurd (eq_zero_of_decimalString_eq_zero (by rw [← h, hm]; rfl)) hn
  · exact absurd (eq_zero_of_decimalString_eq_zero (by rw [h, hn]; rfl)) hm
  · simp only [decimalString, if_neg hm, if_neg hn] at h
    have hchars : (decDigits m).reverse.map Nat.digitChar =
        (decDigits n).reverse.map Nat.digitChar := congrArg String.data h
    rw [decDigits_eq_digits, decDigits_eq_digits] at hchars
    have hmaps :
        (Nat.digits 10 m).reverse.map Nat.digitChar =
          (Nat.digits 10 n).reverse.map Nat.digitChar := hchars
    have hrevs : (Nat.digits 10 m).reverse = (Nat.digits 10 n).reverse :=
      map_digitChar_inj _ _
        (fun x hx => Nat.digits_lt_base (by norm_num) (List.mem_reverse.mp hx))
        (fun x hx => Nat.digits_lt_base (by norm_num) (List.mem_reverse.mp hx))
        hmaps
    have hdigseq : Nat.digits 10 m = Nat.digits 10 n := by
      have := congrArg List.reverse hrevs
      simpa using this
    exact Nat.digits_inj_iff.mp hdigseq

/-! ## Helper lemmas -/

theorem exists_findSome?_of_mem {α β : Type} {f : α → Option β} :
    ∀ {l : List α} {a : α} {b : β}, a ∈ l → f a = some b →
      ∃ c, l.findSome? f = some c := by
  intro l
  induction l with
  | nil => intro a b ha _; cases ha
  | cons hd tl ih =>
      intro a b ha hfa
      cases hfhd : f hd with
      | some c => exact ⟨c, by simp [List.findSome?_cons, hfhd]⟩
      | none =>
          rcases List.mem_cons.mp ha with h | h
          · rw [← h] at hfhd; rw [hfhd] at hfa; cases hfa
          · obtain ⟨c, hc⟩ := ih h hfa
            exact ⟨c, by simp [List.findSome?_cons, hfhd, hc]⟩

theorem legacyInit_ok_state {env : LegacyInitEnv} {s : LegacyState}
    (h : legacyInit LegacyState.fresh env = (some (.ok ()), s)) :
    s.initialized = true := by
  obtain ⟨cf, mr⟩ := env
  cases cf
  · simp [legacyInit, LegacyState.fresh] at h
  · cases mr with
    | error e => simp [legacyInit, LegacyState.fresh] at h
    | ok md =>
        simp [legacyInit, LegacyState.fresh] at h
        rw [← h]

theorem modernInit_ok_state {env : ModernInitEnv} {s : ModernState}
    (h : modernInit ModernState.fresh env = (some (.ok ()), s)) :
    s.initialized = true := by
  obtain ⟨cf, resp, cid⟩ := env
  cases cf
  · simp [modernInit, ModernState.fresh] at h
  · cases hmr : modernGetMetadata resp with
    | error e => simp [modernInit, ModernState.fresh, hmr] at h
    | ok md =>
        simp [modernInit, ModernState.fresh, hmr] at h
        rw [← h]

/-! ## Claim theorems -/

/-- Claim C1 (code bug): the modern component's `fillOrders`, called with one
valid order and two taker amounts — mismatched lengths — raises no schema
error: it runs the whole pipeline (one signing call, one network call) and
assembles a `FillDetails` whose `fills` violate the invariant
`orders.length = takerAmounts.length`, contradicting the spec's requirement
that mismatched lengths fail validation before signing. -/
theorem c1_fill_length_mismatch_passes_validation :
    (modernFillOrders sampleFillEnv [sampleSignedOrder] ["1", "2"] none none).2 = ⟨1, 1⟩
    ∧ (modernFillOrders sampleFillEnv [sampleSignedOrder] ["1", "2"] none none).1
        = .ok ⟨modernFillDetails [sampleSignedOrder] ["1", "2"] none 7,
            .typedDataSign
              (.fill (modernFillDetails [sampleSignedOrder] ["1", "2"] none 7) 1
                sampleAddress),
            [getOrderHash (convertToContractOrder sampleSignedOrder)], sampleBody⟩
    ∧ (modernFillDetails [sampleSignedOrder] ["1", "2"] none 7).fills.orders.length = 1
    ∧ (modernFillDetails [sampleSignedOrder] ["1", "2"] none 7).fills.makerSigs.length = 1
    ∧ (modernFillDetails [sampleSignedOrder] ["1", "2"] none 7).fills.takerAmounts.length
        = 2 :=
  ⟨rfl, rfl, rfl, rfl, rfl⟩

/-- Claim C2 (code bug): in the legacy component, the timeout is *not* armed
independently of the operation's outcome.  `init`'s `setTimeout` sits inside
the "connect" handler, and `getActiveMarkets`'s sits inside the
acknowledgment callback; when the guarding event never fires, no timer is
armed and the returned promise never settles — in particular it never
rejects with a timeout error. -/
theorem c2_legacy_timeout_armed_only_after_success :
    legacyInit LegacyState.fresh ⟨false, .ok .null⟩ = (none, LegacyState.fresh)
    ∧ legacyInitTimersArmed false = 0
    ∧ legacyGetActiveMarkets ⟨false, .null, false, "", ""⟩ = none
    ∧ legacyGetActiveMarketsTimersArmed false = 0 :=
  ⟨rfl, rfl, rfl, rfl⟩

/-- Claim C4: for every valid order intent, both components' canonical
orders carry the wallet-derived maker address, the executor (and, for the
legacy component, relayer and fee rates) from the cached metadata, and the
salt rendered from the fresh random draw — so two calls whose random draws
differ produce different salts. -/
theorem c4_newOrder_canonical_fields
    (order : INewOrder) (wallet : String) (md : Metadata) (d₁ d₂ : Nat)
    (hv : validateINewOrderSchema order = "OK") (hd : d₁ ≠ d₂) :
    (modernMakerOrder order wallet md d₁).maker = wallet
    ∧ (modernMakerOrder order wallet md d₁).executor = md.executorAddress
    ∧ (modernMakerOrder order wallet md d₁).salt = decimalString d₁
    ∧ (modernMakerOrder order wallet md d₁).salt
        ≠ (modernMakerOrder order wallet md d₂).salt
    ∧ (legacyMakerOrder order wallet md d₁).maker = wallet
    ∧ (legacyMakerOrder order wallet md d₁).executor = md.executorAddress
    ∧ (legacyMakerOrder order wallet md d₁).relayer = md.relayerAddress
    ∧ (legacyMakerOrder order wallet md d₁).relayerTakerFee = md.fees.relayerTakerFee
    ∧ (legacyMakerOrder order wallet md d₁).relayerMakerFee = md.fees.relayerMakerFee
    ∧ (legacyMakerOrder order wallet md d₁).salt
        ≠ (legacyMakerOrder order wallet md d₂).salt := by
  refine ⟨rfl, rfl, rfl, ?_, rfl, rfl, rfl, rfl, rfl, ?_⟩ <;>
    exact fun h => hd (decimalString_injective h)

/-- Witness for C4 at a concrete valid intent and the draws 0 and 1. -/
theorem c4_witness :
    validateINewOrderSchema sampleIntent = "OK" ∧ (0 : Nat) ≠ 1
    ∧ (modernMakerOrder sampleIntent sampleAddress sampleMetadata 0).maker = sampleAddress
    ∧ (modernMakerOrder sampleIntent sampleAddress sampleMetadata 0).salt
        ≠ (modernMakerOrder sampleIntent sampleAddress sampleMetadata 1).salt := by
  have h := c4_newOrder_canonical_fields sampleIntent sampleAddress sampleMetadata 0 1
    (by decide) (by decide)
  exact ⟨by decide, by decide, h.1, h.2.2.2.1⟩

/-- Claim C6: for every valid order-hash list, the legacy `cancelOrder`
signs the keccak hash of the concatenated order hashes followed by the
literal boolean `true`, with plain message signing — never the typed-data
scheme — and sends that signature with the hash list. -/
theorem c6_legacy_cancel_signing_scheme
    (env : LegacySocketEnv) (orderHashes : List String)
    (hv : validateOrderHashArray orderHashes = "OK") :
    (legacyCancelRequest orderHashes).cancelSignature
        = .messageSign (orderHashes.map (fun _ => "bytes32") ++ ["bool"])
          (orderHashes.map SolValue.bytes32 ++ [SolValue.boolean true])
    ∧ (∀ payload, (legacyCancelRequest orderHashes).cancelSignature
        ≠ .typedDataSign payload)
    ∧ (∀ ack, env.ack = some ack → ack.status = "success" →
        legacyCancelOrder env orderHashes
          = (.ok (legacyCancelRequest orderHashes, ack), ⟨1, 1⟩)) := by
  refine ⟨rfl, fun payload h => Signature.noConfusion h, fun ack hack hst => ?_⟩
  simp [legacyCancelOrder, hv, hack, hst]

/-- Witness for C6 at the hash list ["0xabcd"] and a success
acknowledgment. -/
theorem c6_witness :
    validateOrderHashArray ["0xabcd"] = "OK"
    ∧ legacyCancelOrder ⟨some ⟨"success", ""⟩⟩ ["0xabcd"]
        = (.ok (legacyCancelRequest ["0xabcd"], ⟨"success", ""⟩), ⟨1, 1⟩) := by
  refine ⟨by decide, ?_⟩
  exact (c6_legacy_cancel_signing_scheme ⟨some ⟨"success", ""⟩⟩ ["0xabcd"]
    (by decide)).2.2 ⟨"success", ""⟩ rfl rfl

/-- Claim C7 counterexample: supplying the message "" (a caller-supplied
message) to the modern `cancelOrder` on a valid hash list yields a payload
whose message field is "N/A", not the supplied message — so the payload's
message does not always equal the caller-supplied message when one is
given. -/
theorem c7_counterexample :
    (modernCancelOrder 1 sampleOkResponse ["0xaaaa"] (some "")).1
        = .ok (⟨["0xaaaa"], "N/A"⟩,
            .typedDataSign (.cancel ⟨["0xaaaa"], "N/A"⟩ 1), sampleBody)
    ∧ "N/A" ≠ "" :=
  ⟨rfl, by decide⟩

/-- Claim C7 as amended: for every valid order-hash list the modern
`cancelOrder` payload's message equals the caller-supplied message when a
*nonempty* one is given, and equals "N/A" when it is omitted (or empty). -/
theorem c7_cancel_message_amended
    (orderHashes : List String) (m : String) (chainId : Nat)
    (resp : HttpResponse) (body : Json)
    (hhex : orderHashes.all isHexString = true) (hm : m ≠ "")
    (hp : resp.parsed = some body) (hs : resp.status = 200) :
    (modernCancelDetails orderHashes (some m)).message = m
    ∧ (modernCancelDetails orderHashes none).message = "N/A"
    ∧ modernCancelOrder chainId resp orderHashes (some m)
        = (.ok (modernCancelDetails orderHashes (some m),
            .typedDataSign (.cancel (modernCancelDetails orderHashes (some m)) chainId),
            body), ⟨1, 1⟩) := by
  refine ⟨by simp [modernCancelDetails, hm], rfl, ?_⟩
  simp [modernCancelOrder, hhex, tryParseResponse, hp, hs]

/-- Witness for the amended C7 at the hash list ["0xaaaa"] and the message
"test". -/
theorem c7_witness :
    (["0xaaaa"].all isHexString = true) ∧ ("test" ≠ "")
    ∧ (modernCancelDetails ["0xaaaa"] (some "test")).message = "test"
    ∧ modernCancelOrder 1 sampleOkResponse ["0xaaaa"] (some "test")
        = (.ok (modernCancelDetails ["0xaaaa"] (some "test"),
            .typedDataSign (.cancel (modernCancelDetails ["0xaaaa"] (some "test")) 1),
            sampleBody), ⟨1, 1⟩) := by
  have h := c7_cancel_message_amended ["0xaaaa"] "test" 1 sampleOkResponse sampleBody
    (by decide) (by decide) rfl rfl
  exact ⟨by decide, by decide, h.1, h.2.2⟩

/-- Claim C9: the legacy `init` marks the instance initialized before the
metadata fetch: when the connection succeeds but the metadata fetch fails,
`init` rejects with that error while the instance is left initialized with
no cached metadata, and a later `init` call fails with "Already
initialized". -/
theorem c9_legacy_init_not_atomic
    (env env₂ : LegacyInitEnv) (e : ClientError)
    (hc : env.connectFires = true) (hm : env.metadataResult = .error e) :
    legacyInit LegacyState.fresh env
        = (some (.error e), ⟨true, true, none⟩)
    ∧ legacyInit ⟨true, true, none⟩ env₂
        = (some (.error (.genericError "Already initialized")), ⟨true, true, none⟩) := by
  constructor
  · simp [legacyInit, LegacyState.fresh, hc, hm]
  · simp [legacyInit]

/-- Witness for C9 with a connecting socket and a failing metadata fetch. -/
theorem c9_witness :
    (⟨true, .error (.genericError "boom")⟩ : LegacyInitEnv).connectFires = true
    ∧ legacyInit LegacyState.fresh ⟨true, .error (.genericError "boom")⟩
        = (some (.error (.genericError "boom")), ⟨true, true, none⟩)
    ∧ legacyInit ⟨true, true, none⟩ ⟨true, .ok .null⟩
        = (some (.error (.genericError "Already initialized")), ⟨true, true, none⟩) := by
  have h := c9_legacy_init_not_atomic ⟨true, .error (.genericError "boom")⟩
    ⟨true, .ok .null⟩ (.genericError "boom") rfl rfl
  exact ⟨rfl, h.1, h.2⟩

/-- Claim C10: the modern `cancelOrder` applies the "N/A" default to every
falsy message value — the empty string as well as an omitted argument. -/
theorem c10_cancel_falsy_message_defaults
    (orderHashes : List String) (message : Option String)
    (hfalsy : message = some "" ∨ message = none) :
    (modernCancelDetails orderHashes message).message = "N/A" := by
  rcases hfalsy with h | h <;> simp [modernCancelDetails, h]

/-- Witness for C10 at the empty-string message. -/
theorem c10_witness :
    ((some "" : Option String) = some "" ∨ (some "" : Option String) = none)
    ∧ (modernCancelDetails ["0xaaaa"] (some "")).message = "N/A" :=
  ⟨Or.inl rfl, c10_cancel_falsy_message_defaults ["0xaaaa"] (some "") (Or.inl rfl)⟩

/-- Claim C3: in both components, an input failing an operation's validation
predicate makes the operation fail with a schema error — a kind distinct by
construction from `apiError` and `timeoutError` — with zero network calls
and zero signing calls. -/
theorem c3_validation_failure_is_local_schema_error
    (mdM : Metadata) (envM : ModernNewOrderEnv) (orderM : INewOrder)
    (hM : validateINewOrderSchema orderM ≠ "OK")
    (mdL : Metadata) (envL : LegacyNewOrderEnv) (orderL : INewOrder)
    (hL : validateINewOrderSchema orderL ≠ "OK")
    (chainId : Nat) (resp : HttpResponse) (hashesM : List String)
    (message : Option String) (hCM : hashesM.all isHexString = false)
    (envC : LegacySocketEnv) (hashesL : List String)
    (hCL : validateOrderHashArray hashesL ≠ "OK")
    (envF : FillOrdersEnv) (ordersF : List ISignedRelayerMakerOrder)
    (amountsF : List String) (metaF : Option IFillDetailsMetadata)
    (affF : Option String) (o : ISignedRelayerMakerOrder) (hoF : o ∈ ordersF)
    (hvF : validateISignedRelayerMakerOrder o ≠ "OK") :
    modernNewOrder mdM envM orderM
        = (.error (.schemaError (validateINewOrderSchema orderM)), Trace.pure)
    ∧ legacyNewOrder mdL envL orderL
        = (.error (.schemaError (validateINewOrderSchema orderL)), Trace.pure)
    ∧ modernCancelOrder chainId resp hashesM message
        = (.error (.schemaError "orderHashes has some invalid order hashes."),
            Trace.pure)
    ∧ legacyCancelOrder envC hashesL
        = (.error (.schemaError (validateOrderHashArray hashesL)), Trace.pure)
    ∧ ∃ msg, modernFillOrders envF ordersF amountsF metaF affF
        = (.error (.schemaError msg), Trace.pure) := by
  refine ⟨?_, ?_, ?_, ?_, ?_⟩
  · simp [modernNewOrder, hM]
  · simp [legacyNewOrder, hL]
  · simp [modernCancelOrder, hCM]
  · simp [legacyCancelOrder, hCL]
  · obtain ⟨c, hc⟩ := exists_findSome?_of_mem
      (f := fun order =>
        let v := validateISignedRelayerMakerOrder order
        if v = "OK" then none else some v)
      hoF (if_neg hvF)
    refine ⟨c, ?_⟩
    simp only [modernFillOrders, hc]
    rfl

/-- Witness for C3 at concrete malformed inputs for all five operations. -/
theorem c3_witness :
    validateINewOrderSchema badIntent ≠ "OK"
    ∧ (["zz"].all isHexString = false)
    ∧ validateOrderHashArray ["zz"] ≠ "OK"
    ∧ badSignedOrder ∈ [badSignedOrder]
    ∧ validateISignedRelayerMakerOrder badSignedOrder ≠ "OK"
    ∧ modernNewOrder sampleMetadata ⟨sampleAddress, 7, sampleOkResponse⟩ badIntent
        = (.error (.schemaError (validateINewOrderSchema badIntent)), Trace.pure)
    ∧ legacyNewOrder sampleMetadata ⟨sampleAddress, 7, some ⟨"success", ""⟩⟩ badIntent
        = (.error (.schemaError (validateINewOrderSchema badIntent)), Trace.pure)
    ∧ modernCancelOrder 1 sampleOkResponse ["zz"] none
        = (.error (.schemaError "orderHashes has some invalid order hashes."),
            Trace.pure)
    ∧ legacyCancelOrder ⟨some ⟨"success", ""⟩⟩ ["zz"]
        = (.error (.schemaError (validateOrderHashArray ["zz"])), Trace.pure)
    ∧ ∃ msg, modernFillOrders sampleFillEnv [badSignedOrder] ["1"] none none
        = (.error (.schemaError msg), Trace.pure) := by
  have h := c3_validation_failure_is_local_schema_error
    sampleMetadata ⟨sampleAddress, 7, sampleOkResponse⟩ badIntent (by decide)
    sampleMetadata ⟨sampleAddress, 7, some ⟨"success", ""⟩⟩ badIntent (by decide)
    1 sampleOkResponse ["zz"] none (by decide)
    ⟨some ⟨"success", ""⟩⟩ ["zz"] (by decide)
    sampleFillEnv [badSignedOrder] ["1"] none none badSignedOrder
    (List.mem_cons_self badSignedOrder []) (by decide)
  exact ⟨by decide, by decide, by decide, List.mem_cons_self badSignedOrder [],
    by decide, h.1, h.2.1, h.2.2.1, h.2.2.2.1, h.2.2.2.2⟩

/-- Claim C5: the modern component's HTTP contract — an unparsable body
rejects with a parse-error `APIError` carrying the raw text; a parsable body
with a non-200 status rejects with an `APIError` carrying the parsed body
and the status code; a parsable 200 response resolves with the body's `data`
field (`getMetadata`), or the documented nested sub-field
(`getActiveMarkets` resolves with `data.markets`). -/
theorem c5_response_parsing_contract
    (resp : HttpResponse) (msg : String) (body : Json) (b : Json) :
    (resp.parsed = none →
      tryParseResponse resp msg
        = .error (.apiError none ("Can't parse JSON " ++ resp.text)))
    ∧ (resp.parsed = some body → resp.status ≠ 200 →
      tryParseResponse resp msg
        = .error (.apiError (some body)
            (msg ++ ". Response code: " ++ decimalString resp.status)))
    ∧ (resp.parsed = some body → resp.status = 200 →
      modernGetMetadata resp = .ok ((body.getField "data").getD .null))
    ∧ (resp.parsed = some body → resp.status = 200 →
      body.getField "data" = some b →
      modernGetActiveMarkets resp = .ok ((b.getField "markets").getD .null)) := by
  refine ⟨fun h => ?_, fun h hs => ?_, fun h hs => ?_, fun h hs hd => ?_⟩
  · simp [tryParseResponse, h]
  · simp [tryParseResponse, h, hs]
  · simp [modernGetMetadata, tryParseResponse, h, hs]
  · simp [modernGetActiveMarkets, tryParseResponse, h, hs, hd]

/-- Witness for C5 at an unparsable 500 response, a parsable 500 response,
and a parsable 200 response. -/
theorem c5_witness :
    tryParseResponse ⟨500, "oops", none⟩ "Can't fetch metadata"
        = .error (.apiError none ("Can't parse JSON " ++ "oops"))
    ∧ tryParseResponse ⟨500, "err", some sampleBody⟩ "Can't fetch metadata"
        = .error (.apiError (some sampleBody)
            ("Can't fetch metadata" ++ ". Response code: " ++ decimalString 500))
    ∧ modernGetMetadata sampleOkResponse
        = .ok ((sampleBody.getField "data").getD .null)
    ∧ modernGetActiveMarkets sampleOkResponse
        = .ok (((Json.obj [("markets", .arr [])]).getField "markets").getD .null) := by
  refine ⟨?_, ?_, ?_, ?_⟩
  · exact (c5_response_parsing_contract ⟨500, "oops", none⟩ "Can't fetch metadata"
      .null .null).1 rfl
  · exact (c5_response_parsing_contract ⟨500, "err", some sampleBody⟩
      "Can't fetch metadata" sampleBody .null).2.1 rfl (by decide)
  · exact (c5_response_parsing_contract sampleOkResponse "Can't fetch metadata"
      sampleBody .null).2.2.1 rfl rfl
  · exact (c5_response_parsing_contract sampleOkResponse "Can't fetch active markets"
      sampleBody (Json.obj [("markets", .arr [])])).2.2.2 rfl rfl rfl

/-- Claim C8: in either component, after a first successful `init` a second
`init` call fails with "Already initialized" and leaves the instance state
(connection, cached metadata) unchanged. -/
theorem c8_init_twice_already_initialized
    (envL envL₂ : LegacyInitEnv) (sL : LegacyState)
    (hL : legacyInit LegacyState.fresh envL = (some (.ok ()), sL))
    (envM envM₂ : ModernInitEnv) (sM : ModernState)
    (hM : modernInit ModernState.fresh envM = (some (.ok ()), sM)) :
    legacyInit sL envL₂
        = (some (.error (.genericError "Already initialized")), sL)
    ∧ modernInit sM envM₂
        = (some (.error (.genericError "Already initialized")), sM) := by
  have h1 := legacyInit_ok_state hL
  have h2 := modernInit_ok_state hM
  constructor
  · simp [legacyInit, h1]
  · simp [modernInit, h2]

/-- Witness for C8 after concrete successful legacy and modern `init`
runs. -/
theorem c8_witness :
    legacyInit LegacyState.fresh ⟨true, .ok .null⟩
        = (some (.ok ()), ⟨true, true, some .null⟩)
    ∧ modernInit ModernState.fresh ⟨true, sampleOkResponse, 1⟩
        = (some (.ok ()), ⟨true, some (.obj [("markets", .arr [])]), some 1⟩)
    ∧ legacyInit ⟨true, true, some .null⟩ ⟨true, .ok .null⟩
        = (some (.error (.genericError "Already initialized")),
            ⟨true, true, some .null⟩)
    ∧ modernInit ⟨true, some (.obj [("markets", .arr [])]), some 1⟩
        ⟨true, sampleOkResponse, 1⟩
        = (some (.error (.genericError "Already initialized")),
            ⟨true, some (.obj [("markets", .arr [])]), some 1⟩) := by
  have h := c8_init_twice_already_initialized
    ⟨true, .ok .null⟩ ⟨true, .ok .null⟩ ⟨true, true, some .null⟩ rfl
    ⟨true, sampleOkResponse, 1⟩ ⟨true, sampleOkResponse, 1⟩
    ⟨true, some (.obj [("markets", .arr [])]), some 1⟩ rfl
  exact ⟨rfl, rfl, h.1, h.2⟩

end SportXJS
